import Mathlib

/-!
Shallow embedding of `lps` (src/src/lib.rs), a command-line file-search
utility: configuration parsing (`Config::new`), the file walker
(`find_files_by_name`), the content-search dispatcher (`content_search`)
with its worker bodies, and the result-aggregation loop of `run`.

Modelling conventions:
* Paths are `String`s (the repository only ever converts them with
  `to_string_lossy`, and the verbose path prints `to_str`); machine
  `usize` is `Nat` with an explicit `2 ^ 64` bound where parsing matters.
* Rust panics (`slice::chunks` with chunk size 0, `usize` division by
  zero) are modelled as `Except.error` with the panic message.
* The mpsc channel is modelled by recording the messages each sender
  submits: `ChannelLog.callerSent` are the messages sent directly by
  `content_search`'s caller path, `ChannelLog.workerSent` has one entry
  per spawned worker thread holding the messages that worker sends.  In
  `run` the receiver is alive for the whole `content_search` call, so
  `Sender::send` never fails there and the dead `break`-on-send-error
  branch is not reachable.
* The filesystem seen by worker threads is a map from path to
  `Option` (does `File::open` succeed) of the list of line reads the
  `BufReader::lines` iterator yields (`Except.error` for a failed read).
-/

namespace Lps

/-- A `LpsLineResult` from lib.rs lines 88-92: 1-based line number, 1-based
column of the first occurrence, raw line content.  `u32` fields are modelled
as `Nat`; the program never computes values near `2 ^ 32`. -/
structure LpsLineResult where
  line : Nat
  column : Nat
  content : String
deriving DecidableEq

/-- A `LpsResult` from lib.rs lines 83-86: a file name and, when a content
search was performed, the accumulated line matches. -/
structure LpsResult where
  file : String
  lines : Option (List LpsLineResult)
deriving DecidableEq

/-- The `Config` struct from lib.rs lines 13-21. -/
structure Config where
  verbose : Bool
  filename : Option String
  ignore_filename_case : Bool
  content : Option String
  ignore_content_case : Bool
  dop : Nat
  root : String
deriving DecidableEq

/-- The clap `ArgMatches` interface that `Config::new` reads: `is_present`
for the three flags, `value_of` for the four valued options. -/
structure ArgMatches where
  verbose : Bool
  filename : Option String
  ignoreFilenameCase : Bool
  content : Option String
  ignoreContentCase : Bool
  dop : Option String
  root : Option String

/-- The ambient process environment used by `Config::new`: `num_cpus::get()`,
`env::current_dir()` (which can fail), and the `Path::is_dir` test. -/
structure Env where
  numCpus : Nat
  currentDir : Option String
  isDir : String → Bool

/-- Rust `str::parse::<usize>`: optional leading `+`, then one or more ASCII
digits, and the value must fit in 64-bit `usize`.  Note `"0"` parses
successfully to `0`. -/
def parseUsize (s : String) : Option Nat :=
  let cs :=
    match s.data with
    | '+' :: rest => rest
    | cs => cs
  if cs = [] then none
  else if cs.all Char.isDigit then
    let v := cs.foldl (fun acc c => acc * 10 + (c.toNat - 48)) 0
    if v < 2 ^ 64 then some v else none
  else none

/-- `Config::new` from lib.rs lines 24-80: read the flags, default `--dop`
to the CPU count, reject a `--dop` that does not parse as `usize`, reject a
`--root` that is not a directory, default `--root` to the current
directory. -/
def Config.new (env : Env) (m : ArgMatches) : Except String Config :=
  let verbose := m.verbose
  let filename := m.filename
  let ignore_filename_case := m.ignoreFilenameCase
  let content := m.content
  let ignore_content_case := m.ignoreContentCase
  let dopStr :=
    match m.dop with
    | some s => s
    | none => toString env.numCpus
  match parseUsize dopStr with
  | none => Except.error "invalid degree of parallelism"
  | some dop =>
    match m.root with
    | some s =>
      if env.isDir s then
        Except.ok { verbose := verbose, filename := filename,
                    ignore_filename_case := ignore_filename_case,
                    content := content,
                    ignore_content_case := ignore_content_case,
                    dop := dop, root := s }
      else
        Except.error "working directory is not a directory"
    | none =>
      match env.currentDir with
      | some d =>
        Except.ok { verbose := verbose, filename := filename,
                    ignore_filename_case := ignore_filename_case,
                    content := content,
                    ignore_content_case := ignore_content_case,
                    dop := dop, root := d }
      | none => Except.error "cannot determine current directory"

/-- `find_files_by_name` from lib.rs lines 143-147.  The body is literally
`let mut result = Vec::new(); result`: it performs no traversal and returns
the empty vector for every configuration and path. -/
def find_files_by_name (_config : Config) (_path : String) : List String :=
  let result : List String := []
  result

/-- The filesystem as seen by a worker: `File::open` on a path either fails
(`none`) or yields the sequence of results of the `lines()` iterator. -/
abbrev FS := String → Option (List (Except Unit String))

/-- The per-line loop of the worker body, lib.rs lines 177-184: each
iteration matches the read result, `continue`s on `Err`, and on `Ok` binds
the line — after which the loop body ends without inspecting the line. -/
def scan_lines (lineReads : List (Except Unit String)) : Unit :=
  lineReads.foldl
    (fun acc lineRead =>
      match lineRead with
      | Except.error _ => acc
      | Except.ok _line => acc)
    ()

/-- The worker body for one file, lib.rs lines 169-185: open the file
(`continue` to the next file on failure), run the per-line loop.  No call
to `sender.send` exists anywhere in the worker (the sender is not captured
by the thread closure), so the list of results the worker sends for the
file is empty. -/
def worker_scan_file (fs : FS) (path : String) : List LpsResult :=
  match fs path with
  | none => []
  | some lineReads =>
    let _ := scan_lines lineReads
    []

/-- Rust `usize` division, which panics on a zero divisor. -/
def rustDiv (a b : Nat) : Except String Nat :=
  if b = 0 then Except.error "attempt to divide by zero"
  else Except.ok (a / b)

/-- Fuel-driven splitting of a list into consecutive chunks of `n`
elements; structural recursion on the fuel keeps it kernel-reducible. -/
def chunksOfFuel (fuel n : Nat) (l : List α) : List (List α) :=
  match fuel, l with
  | _, [] => []
  | 0, _ :: _ => []
  | f + 1, x :: xs => ((x :: xs).take n) :: chunksOfFuel f n ((x :: xs).drop n)

/-- Split a list into consecutive chunks of `n` elements (the last chunk
may be shorter), as `slice::chunks` does for a positive chunk size.  When
`n ≥ 1` every step consumes at least one element, so fuel `l.length` is
enough. -/
def chunksOf (n : Nat) (l : List α) : List (List α) :=
  chunksOfFuel l.length n l

/-- Rust `slice::chunks`, which panics when the chunk size is zero. -/
def rustChunks (n : Nat) (l : List α) : Except String (List (List α)) :=
  if n = 0 then Except.error "chunk size must be non-zero"
  else Except.ok (chunksOf n l)

/-- The partition step of `content_search`, lib.rs line 165:
`files.chunks(files.len() / config.dop)` — integer (floor) division, then
`slice::chunks`; either operation can panic. -/
def partitionFiles (files : List String) (dop : Nat) :
    Except String (List (List String)) :=
  match rustDiv files.length dop with
  | Except.error e => Except.error e
  | Except.ok sz => rustChunks sz files

/-- Everything submitted to the mpsc channel during `content_search`:
messages sent directly by the caller path, and the messages sent by each
spawned worker thread (one entry per thread). -/
structure ChannelLog where
  callerSent : List LpsResult
  workerSent : List (List LpsResult)
deriving DecidableEq

/-- `content_search` from lib.rs lines 149-188.  If no content pattern is
configured, the caller sends one `lines := none` result per file and spawns
no thread.  Otherwise the file list is partitioned with
`files.chunks(files.len() / config.dop)` (a panic point) and one worker
thread is spawned per chunk, each running `worker_scan_file` over its
chunk. -/
def content_search (fs : FS) (config : Config) (files : List String) :
    Except String ChannelLog :=
  if config.content.isNone then
    Except.ok { callerSent := files.map (fun f => { file := f, lines := none }),
                workerSent := [] }
  else
    match partitionFiles files config.dop with
    | Except.error e => Except.error e
    | Except.ok cs =>
      Except.ok { callerSent := [],
                  workerSent :=
                    cs.map (fun chunk => chunk.flatMap (worker_scan_file fs)) }

/-- The printing of one received result, lib.rs lines 126-137: a result
with `lines = none` prints the bare file name; a result with an empty match
list prints nothing; otherwise the file name followed by one
`  line:column content` line per match. -/
def printResult (r : LpsResult) : List String :=
  match r.lines with
  | none => [r.file]
  | some lines =>
    if lines.isEmpty then []
    else
      r.file ::
        lines.map (fun l =>
          "  " ++ toString l.line ++ ":" ++ toString l.column ++ " " ++ l.content)

/-- One observed outcome of `receiver.recv()`: a message, or the `RecvError`
returned once every sender handle has been released. -/
inductive RecvResult where
  | ok (r : LpsResult)
  | err
deriving DecidableEq

/-- The aggregation loop of `run`, lib.rs lines 117-138, over the stream of
`recv` outcomes: a received result is printed and the loop continues; a
`recv` error breaks out of the loop, after which `run` falls through to
`Ok(())`.  Returns the printed lines; the `Except` layer records that the
loop itself offers no error exit. -/
def aggregateLoop (stream : List RecvResult) : Except String (List String) :=
  match stream with
  | [] => Except.ok []
  | RecvResult.err :: _ => Except.ok []
  | RecvResult.ok r :: rest =>
    match aggregateLoop rest with
    | Except.ok out => Except.ok (printResult r ++ out)
    | Except.error e => Except.error e

/-- `run` from lib.rs lines 94-141: optional verbose banner (the `to_str`
failure path cannot fire in this model because roots are `String`s, hence
valid UTF-8), walker, `content_search`, then the aggregation loop over
everything that was sent before the channel closed.  A panic inside
`content_search` aborts the run and is modelled as the error outcome. -/
def run (fs : FS) (config : Config) : Except String (List String) :=
  let pre :=
    if config.verbose then
      ["working directory: " ++ config.root,
       "DoP was set to " ++ toString config.dop ++ " threads"]
    else []
  let files := find_files_by_name config config.root
  match content_search fs config files with
  | Except.error e => Except.error e
  | Except.ok log =>
    match aggregateLoop
        ((log.callerSent ++ log.workerSent.flatMap (fun x => x)).map
          RecvResult.ok ++ [RecvResult.err]) with
    | Except.error e => Except.error e
    | Except.ok out => Except.ok (pre ++ out)

/-! Reference models of the behaviour the specification describes, used
only to exhibit where the source diverges from it (spec sections 4.1 and
4.2).  They are deliberately written from the spec text, not the source. -/

/-- Index of the first occurrence of `pat` in `s` (0-based), if any. -/
def findSub (pat : List Char) : List Char → Option Nat
  | [] => if pat = [] then some 0 else none
  | c :: rest =>
    if List.isPrefixOf pat (c :: rest) then some 0
    else (findSub pat rest).map (fun i => i + 1)

/-- `pat` occurs in `hay` as a substring. -/
def containsSub (hay pat : String) : Bool :=
  (findSub pat.data hay.data).isSome

/-- Spec 4.1: a file name satisfies the filename filter when the pattern is
absent, or occurs as a substring (case-folded on both sides when
`ignore_filename_case` is set). -/
def nameMatches (config : Config) (name : String) : Bool :=
  match config.filename with
  | none => true
  | some pat =>
    if config.ignore_filename_case then containsSub name.toLower pat.toLower
    else containsSub name pat

/-- A directory tree of regular files, for the spec-side walker. -/
inductive FsEntry where
  | file (name : String)
  | dir (name : String) (entries : List FsEntry)

mutual
/-- Spec 4.1 walker reference model: recursively visit directories and
yield every reachable regular file whose name satisfies the filter. -/
def spec_walk (config : Config) : FsEntry → List String
  | FsEntry.file n => if nameMatches config n then [n] else []
  | FsEntry.dir _ es => spec_walk_list config es

/-- Spec 4.1 walker reference model, over a directory's entry list. -/
def spec_walk_list (config : Config) : List FsEntry → List String
  | [] => []
  | e :: es => spec_walk config e ++ spec_walk_list config es
end

/-- Spec 4.2 step 3 reference model: test every line for the content
pattern as a plain substring (case-folded on both sides when requested) and
record the 1-based line number, 1-based first-occurrence column, and raw
line text. -/
def spec_scan_lines (pat : String) (ignoreCase : Bool) (lines : List String) :
    List LpsLineResult :=
  lines.enum.filterMap (fun p =>
    let hay := if ignoreCase then p.2.toLower else p.2
    let ndl := if ignoreCase then pat.toLower else pat
    match findSub ndl.data hay.data with
    | none => none
    | some col => some { line := p.1 + 1, column := col + 1, content := p.2 })

/-! Concrete instances used by the evaluation theorems. -/

/-- A filesystem with one readable file `a.txt` holding the single line
`hello world`. -/
def fsEx : FS :=
  fun p => if p = "a.txt" then some [Except.ok "hello world"] else none

/-- A configuration with no filename pattern and no content pattern. -/
def cfgPlain : Config :=
  { verbose := false, filename := none, ignore_filename_case := false,
    content := none, ignore_content_case := false, dop := 1, root := "/r" }

/-- A configuration requesting a content search for `hello` with one
worker. -/
def cfgContent : Config :=
  { verbose := false, filename := none, ignore_filename_case := false,
    content := some "hello", ignore_content_case := false, dop := 1,
    root := "/r" }

/-- A configuration requesting a content search for `x` with two workers. -/
def cfgContentDop2 : Config :=
  { verbose := false, filename := none, ignore_filename_case := false,
    content := some "x", ignore_content_case := false, dop := 2,
    root := "/r" }

/-- The process environment for the `Config::new` evaluations: 4 CPUs, a
current directory, every path a directory. -/
def envEx : Env :=
  { numCpus := 4, currentDir := some "/home", isDir := fun _ => true }

/-- Command-line matches carrying `--dop 0`. -/
def argsDopZero : ArgMatches :=
  { verbose := false, filename := none, ignoreFilenameCase := false,
    content := none, ignoreContentCase := false, dop := some "0",
    root := some "/tmp" }

end Lps

namespace Lps

/-- C9: `find_files_by_name` returns the empty list for every configuration
and every path argument, so every run of the program has zero candidate
files regardless of the root's actual contents. -/
theorem walker_always_empty (config : Config) (path : String) :
    find_files_by_name config path = [] := rfl

/-- C1: the file walker does not yield the reachable regular files.  On a
root directory holding one regular file `a.txt` (and no filename pattern),
the spec-side walker yields `a.txt`, but `find_files_by_name` — which never
inspects the filesystem at all — returns the empty list. -/
theorem walker_misses_existing_file :
    spec_walk cfgPlain (FsEntry.dir "r" [FsEntry.file "a.txt"]) = ["a.txt"] ∧
    find_files_by_name cfgPlain "r" = [] :=
  ⟨rfl, rfl⟩

/-- C2: the worker never tests lines against the content pattern.  For the
file `a.txt` whose single line is `hello world` and pattern `hello`, the
spec-side scan records the match at line 1, column 1, but the worker body,
which binds each line and then ends, records and sends nothing. -/
theorem worker_records_nothing :
    spec_scan_lines "hello" false ["hello world"] =
      [{ line := 1, column := 1, content := "hello world" }] ∧
    worker_scan_file fsEx "a.txt" = [] :=
  ⟨rfl, rfl⟩

/-- C3: a candidate file with a matching line produces no result on the
channel: the spec-side scan finds a match in `a.txt`, yet `content_search`
with pattern `hello` and one worker spawns a single thread that sends
nothing at all (`workerSent = [[]]`). -/
theorem no_result_sent_for_matching_file :
    (spec_scan_lines "hello" false ["hello world"]).length = 1 ∧
    content_search fsEx cfgContent ["a.txt"] =
      Except.ok { callerSent := [], workerSent := [[]] } :=
  ⟨rfl, rfl⟩

/-- C4: the partition uses the floor-division chunk size
`files.len() / dop`: five candidates with two workers yield three chunks,
not `min 2 5 = 2`; and one candidate with two workers panics because the
chunk size is zero. -/
theorem partition_chunk_count_diverges :
    partitionFiles ["f1", "f2", "f3", "f4", "f5"] 2 =
      Except.ok [["f1", "f2"], ["f3", "f4"], ["f5"]] ∧
    partitionFiles ["f1"] 2 = Except.error "chunk size must be non-zero" :=
  ⟨rfl, rfl⟩

/-- C5: content search with fewer candidates than workers panics instead of
running cleanly: with `dop = 2`, both zero candidates and one candidate hit
`slice::chunks` with chunk size 0, and the full `run` (whose walker always
yields zero candidates) aborts with that panic rather than completing
silently. -/
theorem content_search_panics_small_inputs :
    content_search fsEx cfgContentDop2 [] =
      Except.error "chunk size must be non-zero" ∧
    content_search fsEx cfgContentDop2 ["f1"] =
      Except.error "chunk size must be non-zero" ∧
    run fsEx cfgContentDop2 = Except.error "chunk size must be non-zero" :=
  ⟨rfl, rfl, rfl⟩

/-- C6: when the content pattern is absent, `content_search` spawns no
worker thread and the caller itself sends exactly one bare result
(`lines = none`) per candidate, in order. -/
theorem content_absent_no_threads (fs : FS) (config : Config)
    (files : List String) (h : config.content = none) :
    content_search fs config files =
      Except.ok { callerSent := files.map (fun f => { file := f, lines := none }),
                  workerSent := [] } := by
  simp [content_search, h]

/-- Witness for C6 at a concrete configuration and two candidates. -/
theorem content_absent_no_threads_w :
    content_search fsEx cfgPlain ["a.txt", "b.log"] =
      Except.ok { callerSent := [{ file := "a.txt", lines := none },
                                 { file := "b.log", lines := none }],
                  workerSent := [] } :=
  content_absent_no_threads fsEx cfgPlain ["a.txt", "b.log"] rfl

/-- C7: `Config::new` does not enforce `dop ≥ 1`: the argument `--dop 0`
parses as a valid `usize`, so construction succeeds and yields a `Config`
whose degree of parallelism is 0. -/
theorem config_new_accepts_dop_zero :
    (Config.new envEx argsDopZero).toOption.map Config.dop = some 0 := rfl

/-- C8: the aggregation loop of `run` treats the `recv` error raised once
all senders are released as a normal end of stream: for every sequence of
delivered messages (and whatever would follow the closure), it prints each
message's block and returns `Ok`, never an error. -/
theorem recv_err_is_normal_eos (msgs : List LpsResult) (tail : List RecvResult) :
    aggregateLoop (msgs.map RecvResult.ok ++ RecvResult.err :: tail) =
      Except.ok (msgs.flatMap printResult) := by
  induction msgs with
  | nil => rfl
  | cons m ms ih => simp [aggregateLoop, ih]

/-- C10: whenever a content pattern is configured, the `content_search`
call made by `run` panics: the walker's candidate list is empty, so the
chunk size `0 / dop` is 0 (or the division itself panics when `dop = 0`)
and `slice::chunks` rejects it. -/
theorem content_search_always_panics (fs : FS) (config : Config)
    (h : config.content.isSome = true) :
    ∃ msg, content_search fs config (find_files_by_name config config.root) =
      Except.error msg := by
  have hn : config.content.isNone = false := by
    cases hc : config.content <;> simp [hc] at h ⊢
  show ∃ msg, content_search fs config [] = Except.error msg
  unfold content_search
  rw [hn]
  simp only [Bool.false_eq_true, if_false]
  cases hd : config.dop with
  | zero =>
    exact ⟨"attempt to divide by zero", by simp [partitionFiles, rustDiv]⟩
  | succ n =>
    exact ⟨"chunk size must be non-zero",
      by simp [partitionFiles, rustDiv, rustChunks, Nat.zero_div]⟩

/-- Witness for C10 at a concrete content-searching configuration. -/
theorem content_search_always_panics_w :
    ∃ msg, content_search fsEx cfgContentDop2
        (find_files_by_name cfgContentDop2 cfgContentDop2.root) =
      Except.error msg :=
  content_search_always_panics fsEx cfgContentDop2 rfl

end Lps
